import Mathlib

set_option maxRecDepth 8000

/-!
Verification of the tweepy authentication module (`tweepy/auth.py`).

The Python source is shallowly embedded: every handler becomes a structure,
every method a pure function.  Python exceptions are modelled by the
`PyExc` type and fallible operations return `Except PyExc _` (paired with
the post-state for methods that mutate the handler).  The HTTP transport
and the external OAuth library calls are out of scope for the module (they
are collaborators); each operation therefore receives the outcome of its
underlying library call as an explicit `Except PyExc _` argument, while all
logic of the module itself (control flow, exception wrapping, field access,
PKCE challenge derivation) is embedded faithfully.
-/

/-- Python exception values.  `tweepy e` is `TweepyException(e)` wrapping a
cause exception, `tweepyMsg m` is `TweepyException(m)` built from a message
string. -/
inductive PyExc where
  | typeError (msg : String)
  | keyError (key : String)
  | indexError (msg : String)
  | attributeError (name : String)
  | transportError (msg : String)
  | tweepy (cause : PyExc)
  | tweepyMsg (msg : String)
  deriving Repr, DecidableEq

/-- Dynamically typed Python values, as far as the type checks in
`OAuthHandler.__init__` need to distinguish them. -/
inductive PyValue where
  | pstr (s : String)
  | pbytes (bs : List Nat)
  | pint (n : Int)
  | pnone
  deriving Repr, DecidableEq

/-- `type(v).__name__` for the modelled Python values. -/
def PyValue.typeName : PyValue → String
  | .pstr _ => "str"
  | .pbytes _ => "bytes"
  | .pint _ => "int"
  | .pnone => "NoneType"

/-- `isinstance(v, (str, bytes))`. -/
def PyValue.isStrOrBytes : PyValue → Bool
  | .pstr _ => true
  | .pbytes _ => true
  | _ => false

/-- `str(v)` for an optional string as produced by `dict.get`: Python
prints the value itself, or `None` when the key was absent. -/
def pyStrOpt : Option String → String
  | none => "None"
  | some s => s

/-! ## URL-safe base64 (`base64.urlsafe_b64encode`) -/

/-- The URL-safe base64 alphabet used by `base64.urlsafe_b64encode`. -/
def b64Alphabet : List Char :=
  ("ABCDEFGHIJKLMNOPQRSTUVWXYZabcdefghijklmnopqrstuvwxyz0123456789-_").toList

/-- The alphabet character for a 6-bit group. -/
def b64Char (n : Nat) : Char := b64Alphabet.getD n 'A'

/-- Membership in the URL-safe base64 alphabet. -/
def isB64UrlChar (c : Char) : Bool := b64Alphabet.contains c

/-- `base64.urlsafe_b64encode` on a byte string, producing characters
(including trailing `=` padding). -/
def urlsafe_b64encode : List Nat → List Char
  | [] => []
  | [b1] => [b64Char (b1 / 4), b64Char (b1 % 4 * 16), '=', '=']
  | [b1, b2] => [b64Char (b1 / 4), b64Char (b1 % 4 * 16 + b2 / 16), b64Char (b2 % 16 * 4), '=']
  | b1 :: b2 :: b3 :: rest =>
    b64Char (b1 / 4) :: b64Char (b1 % 4 * 16 + b2 / 16) ::
      b64Char (b2 % 16 * 4 + b3 / 64) :: b64Char (b3 % 64) :: urlsafe_b64encode rest

/-- URL-safe base64 without the `=` padding (the result of encoding and
then stripping trailing `=`). -/
def b64NoPad : List Nat → List Char
  | [] => []
  | [b1] => [b64Char (b1 / 4), b64Char (b1 % 4 * 16)]
  | [b1, b2] => [b64Char (b1 / 4), b64Char (b1 % 4 * 16 + b2 / 16), b64Char (b2 % 16 * 4)]
  | b1 :: b2 :: b3 :: rest =>
    b64Char (b1 / 4) :: b64Char (b1 % 4 * 16 + b2 / 16) ::
      b64Char (b2 % 16 * 4 + b3 / 64) :: b64Char (b3 % 64) :: b64NoPad rest

/-- Python `bytes.rstrip` for a single character: removes every trailing
occurrence of `c`. -/
def rstripChar (c : Char) (l : List Char) : List Char :=
  (l.reverse.dropWhile (fun x => x == c)).reverse

/-- `secrets.token_urlsafe` on given random bytes: URL-safe base64 with the
padding stripped. -/
def token_urlsafe (rnd : List Nat) : List Char :=
  rstripChar '=' (urlsafe_b64encode rnd)

/-! ### Lemmas about the base64 encoder -/

/-- Induction principle matching the 3-byte grouping of the encoder. -/
theorem tripleInduction (P : List Nat → Prop) (h0 : P []) (h1 : ∀ b, P [b])
    (h2 : ∀ b c, P [b, c])
    (h3 : ∀ b c d rest, P rest → P (b :: c :: d :: rest)) : ∀ l, P l
  | [] => h0
  | [b] => h1 b
  | [b, c] => h2 b c
  | b :: c :: d :: r => h3 b c d r (tripleInduction P h0 h1 h2 h3 r)

theorem b64Char_mem : ∀ n, n < 64 → isB64UrlChar (b64Char n) = true := by decide

theorem b64Char_ne_pad {n : Nat} (h : n < 64) : b64Char n ≠ '=' := by
  intro he
  have := b64Char_mem n h
  rw [he] at this
  exact absurd this (by decide)

theorem b64Char_ne_amp {n : Nat} (h : n < 64) : b64Char n ≠ '&' := by
  intro he
  have := b64Char_mem n h
  rw [he] at this
  exact absurd this (by decide)

theorem b64NoPad_ne_nil {l : List Nat} (h : l ≠ []) : b64NoPad l ≠ [] := by
  match l with
  | [] => exact absurd rfl h
  | [b] => simp [b64NoPad]
  | [b, c] => simp [b64NoPad]
  | b :: c :: d :: r => simp [b64NoPad]

theorem b64NoPad_length (l : List Nat) : (b64NoPad l).length = (4 * l.length + 2) / 3 := by
  induction l using tripleInduction with
  | h0 => simp [b64NoPad]
  | h1 b => simp [b64NoPad]
  | h2 b c => simp [b64NoPad]
  | h3 b c d rest ih => simp [b64NoPad, ih]; omega

theorem b64NoPad_alphabet {l : List Nat} (hb : ∀ b ∈ l, b < 256) :
    ∀ c ∈ b64NoPad l, isB64UrlChar c = true := by
  induction l using tripleInduction with
  | h0 => simp [b64NoPad]
  | h1 b =>
    have hb1 : b < 256 := hb b (by simp)
    simp only [b64NoPad, List.mem_cons, List.not_mem_nil, or_false]
    rintro c (rfl | rfl) <;> exact b64Char_mem _ (by omega)
  | h2 b c =>
    have hb1 : b < 256 := hb b (by simp)
    have hb2 : c < 256 := hb c (by simp)
    simp only [b64NoPad, List.mem_cons, List.not_mem_nil, or_false]
    rintro x (rfl | rfl | rfl) <;> exact b64Char_mem _ (by omega)
  | h3 b c d rest ih =>
    have hb1 : b < 256 := hb b (by simp)
    have hb2 : c < 256 := hb c (by simp)
    have hb3 : d < 256 := hb d (by simp)
    have hrest : ∀ x ∈ rest, x < 256 := fun x hx => hb x (by simp [hx])
    simp only [b64NoPad, List.mem_cons]
    rintro x (rfl | rfl | rfl | rfl | hx)
    · exact b64Char_mem _ (by omega)
    · exact b64Char_mem _ (by omega)
    · exact b64Char_mem _ (by omega)
    · exact b64Char_mem _ (by omega)
    · exact ih hrest x hx

theorem dropWhile_append_of_ne_nil {p : Char → Bool} {a b : List Char}
    (h : a.dropWhile p ≠ []) : (a ++ b).dropWhile p = a.dropWhile p ++ b := by
  induction a with
  | nil => exact absurd rfl h
  | cons x a ih =>
    by_cases hx : p x = true
    · rw [List.cons_append, List.dropWhile_cons_of_pos hx, List.dropWhile_cons_of_pos hx]
      exact ih (by rwa [List.dropWhile_cons_of_pos hx] at h)
    · rw [List.cons_append, List.dropWhile_cons_of_neg (by simpa using hx),
        List.dropWhile_cons_of_neg (by simpa using hx), List.cons_append]

theorem strip_encode {l : List Nat} (hb : ∀ b ∈ l, b < 256) :
    rstripChar '=' (urlsafe_b64encode l) = b64NoPad l := by
  induction l using tripleInduction with
  | h0 => simp [rstripChar, urlsafe_b64encode, b64NoPad]
  | h1 b =>
    have hb1 : b < 256 := hb b (by simp)
    have h2 : (b64Char (b % 4 * 16) == '=') = false := by
      simpa using b64Char_ne_pad (n := b % 4 * 16) (by omega)
    simp [rstripChar, urlsafe_b64encode, b64NoPad, List.dropWhile, h2]
  | h2 b c =>
    have hb1 : b < 256 := hb b (by simp)
    have hb2 : c < 256 := hb c (by simp)
    have h2 : (b64Char (c % 16 * 4) == '=') = false := by
      simpa using b64Char_ne_pad (n := c % 16 * 4) (by omega)
    simp [rstripChar, urlsafe_b64encode, b64NoPad, List.dropWhile, h2]
  | h3 b c d rest ih =>
    have hb3 : d < 256 := hb d (by simp)
    have hz : (b64Char (d % 64) == '=') = false := by
      simpa using b64Char_ne_pad (n := d % 64) (by omega)
    have hrest : ∀ x ∈ rest, x < 256 := fun x hx => hb x (by simp [hx])
    match rest with
    | [] =>
      simp [rstripChar, urlsafe_b64encode, b64NoPad, List.dropWhile, hz]
    | r1 :: rest2 =>
      have hne : (urlsafe_b64encode (r1 :: rest2)).reverse.dropWhile (fun x => x == '=') ≠ [] := by
        intro hcontra
        have : rstripChar '=' (urlsafe_b64encode (r1 :: rest2)) = [] := by
          simp [rstripChar, hcontra]
        rw [ih hrest] at this
        exact b64NoPad_ne_nil (by simp) this
      have step : urlsafe_b64encode (b :: c :: d :: r1 :: rest2) =
          [b64Char (b / 4), b64Char (b % 4 * 16 + c / 16),
           b64Char (c % 16 * 4 + d / 64), b64Char (d % 64)] ++ urlsafe_b64encode (r1 :: rest2) := by
        simp [urlsafe_b64encode]
      have ihrev : (urlsafe_b64encode (r1 :: rest2)).reverse.dropWhile (fun x => x == '=') =
          (b64NoPad (r1 :: rest2)).reverse := by
        have := ih hrest
        simp only [rstripChar] at this
        calc (urlsafe_b64encode (r1 :: rest2)).reverse.dropWhile (fun x => x == '=')
            = ((urlsafe_b64encode (r1 :: rest2)).reverse.dropWhile (fun x => x == '=')).reverse.reverse := by
              rw [List.reverse_reverse]
          _ = (b64NoPad (r1 :: rest2)).reverse := by rw [this]
      rw [step]
      simp only [rstripChar, List.reverse_append]
      rw [dropWhile_append_of_ne_nil hne, ihrev]
      simp only [List.reverse_append, List.reverse_reverse]
      simp [b64NoPad, urlsafe_b64encode]

theorem token_urlsafe_eq {l : List Nat} (hb : ∀ b ∈ l, b < 256) :
    token_urlsafe l = b64NoPad l := strip_encode hb

theorem token_urlsafe_length {l : List Nat} (hb : ∀ b ∈ l, b < 256) :
    (token_urlsafe l).length = (4 * l.length + 2) / 3 := by
  rw [token_urlsafe_eq hb, b64NoPad_length]

theorem token_urlsafe_alphabet {l : List Nat} (hb : ∀ b ∈ l, b < 256) :
    ∀ c ∈ token_urlsafe l, isB64UrlChar c = true := by
  rw [token_urlsafe_eq hb]
  exact b64NoPad_alphabet hb

/-! ## SHA-256 (`hashlib.sha256`), on byte lists -/

/-- Truncation to a 32-bit word. -/
def w32 (n : Nat) : Nat := n % 4294967296

/-- Right rotation of a 32-bit word. -/
def rotr32 (k n : Nat) : Nat := w32 (n / 2 ^ k + n % 2 ^ k * 2 ^ (32 - k))

/-- SHA-256 round constants. -/
def shaK : List Nat :=
  [1116352408, 1899447441, 3049323471, 3921009573, 961987163, 1508970993,
   2453635748, 2870763221, 3624381080, 310598401, 607225278, 1426881987,
   1925078388, 2162078206, 2614888103, 3248222580, 3835390401, 4022224774,
   264347078, 604807628, 770255983, 1249150122, 1555081692, 1996064986,
   2554220882, 2821834349, 2952996808, 3210313671, 3336571891, 3584528711,
   113926993, 338241895, 666307205, 773529912, 1294757372, 1396182291,
   1695183700, 1986661051, 2177026350, 2456956037, 2730485921, 2820302411,
   3259730800, 3345764771, 3516065817, 3600352804, 4094571909, 275423344,
   430227734, 506948616, 659060556, 883997877, 958139571, 1322822218,
   1537002063, 1747873779, 1955562222, 2024104815, 2227730452, 2361852424,
   2428436474, 2756734187, 3204031479, 3329325298]

/-- SHA-256 initial hash state. -/
def shaH0 : List Nat :=
  [1779033703, 3144134277, 1013904242, 2773480762,
   1359893119, 2600822924, 528734635, 1541459225]

/-- Big-endian 8-byte encoding of the bit length. -/
def shaLenBytes (n : Nat) : List Nat :=
  [n / 2 ^ 56 % 256, n / 2 ^ 48 % 256, n / 2 ^ 40 % 256, n / 2 ^ 32 % 256,
   n / 2 ^ 24 % 256, n / 2 ^ 16 % 256, n / 2 ^ 8 % 256, n % 256]

/-- SHA-256 padding: append `0x80`, zero bytes to 56 mod 64, then the
64-bit big-endian message bit length. -/
def shaPad (msg : List Nat) : List Nat :=
  msg ++ 128 :: List.replicate ((119 - msg.length % 64) % 64) 0 ++ shaLenBytes (8 * msg.length)

/-- Big-endian conversion of 4-byte groups into 32-bit words. -/
def bytesToWords : List Nat → List Nat
  | b1 :: b2 :: b3 :: b4 :: rest =>
    (b1 * 16777216 + b2 * 65536 + b3 * 256 + b4) :: bytesToWords rest
  | _ => []

/-- Message-schedule extension step: append the next scheduled word. -/
def shaExtendStep (w : List Nat) : List Nat :=
  let n := w.length
  let s0 :=
    rotr32 7 (w.getD (n - 15) 0) ^^^ rotr32 18 (w.getD (n - 15) 0) ^^^ (w.getD (n - 15) 0) / 8
  let s1 :=
    rotr32 17 (w.getD (n - 2) 0) ^^^ rotr32 19 (w.getD (n - 2) 0) ^^^ (w.getD (n - 2) 0) / 1024
  w ++ [w32 (w.getD (n - 16) 0 + s0 + w.getD (n - 7) 0 + s1)]

/-- Extend the 16 chunk words to the 64-word message schedule. -/
def shaSchedule (w : List Nat) : Nat → List Nat
  | 0 => w
  | k + 1 => shaSchedule (shaExtendStep w) k

/-- One round of the SHA-256 compression function on state
`[a, b, c, d, e, f, g, h]`. -/
def shaRound (s : List Nat) (ki wi : Nat) : List Nat :=
  match s with
  | [a, b, c, d, e, f, g, h] =>
    let S1 := rotr32 6 e ^^^ rotr32 11 e ^^^ rotr32 25 e
    let ch := e &&& f ^^^ (4294967295 - e) &&& g
    let t1 := w32 (h + S1 + ch + ki + wi)
    let S0 := rotr32 2 a ^^^ rotr32 13 a ^^^ rotr32 22 a
    let mj := a &&& b ^^^ a &&& c ^^^ b &&& c
    let t2 := w32 (S0 + mj)
    [w32 (t1 + t2), a, b, c, w32 (d + t1), e, f, g]
  | _ => s

/-- All 64 compression rounds, driven by the zipped constants/schedule. -/
def shaRounds : List Nat → List (Nat × Nat) → List Nat
  | s, [] => s
  | s, (k, w) :: rest => shaRounds (shaRound s k w) rest

/-- Process one 64-byte chunk into the running hash state. -/
def shaChunk (h : List Nat) (chunk : List Nat) : List Nat :=
  let ws := shaSchedule (bytesToWords chunk) 48
  let s := shaRounds h (List.zip shaK ws)
  List.zipWith (fun a b => w32 (a + b)) h s

/-- Split a byte list into 64-byte chunks. -/
def chunks64 : List Nat → List (List Nat)
  | [] => []
  | x :: xs => ((x :: xs).take 64) :: chunks64 ((x :: xs).drop 64)
termination_by l => l.length
decreasing_by simp [List.length_drop]; omega

/-- Big-endian bytes of a 32-bit word. -/
def wordBytes (w : Nat) : List Nat :=
  [w / 16777216 % 256, w / 65536 % 256, w / 256 % 256, w % 256]

/-- `hashlib.sha256(msg).digest()`: the 32-byte SHA-256 digest of a byte
string. -/
def sha256Bytes (msg : List Nat) : List Nat :=
  (((chunks64 (shaPad msg)).foldl shaChunk shaH0).map wordBytes).flatten


theorem sha256Bytes_lt (msg : List Nat) : ∀ b ∈ sha256Bytes msg, b < 256 := by
  intro b hb
  simp only [sha256Bytes, List.mem_flatten, List.mem_map] at hb
  obtain ⟨l, ⟨w, _, rfl⟩, hbl⟩ := hb
  simp only [wordBytes, List.mem_cons, List.not_mem_nil, or_false] at hbl
  rcases hbl with rfl | rfl | rfl | rfl <;> exact Nat.mod_lt _ (by omega)

/-! ## Query strings and URLs

URLs are embedded as `List Char`.  The external `OAuth2Session.authorization_url`
(from the OAuth library, an out-of-scope collaborator) renders the provider
URL with the standard query parameters followed by the keyword parameters
the module passes (`code_challenge`, `code_challenge_method`), in the order
the library emits them. -/

/-- Split a character list at every occurrence of `c`. -/
def splitOnChar (c : Char) : List Char → List (List Char)
  | [] => [[]]
  | x :: xs =>
    if x = c then [] :: splitOnChar c xs
    else
      match splitOnChar c xs with
      | [] => [[x]]
      | s :: ss => (x :: s) :: ss

/-- Everything after the first occurrence of `c` (used to isolate the query
part of a URL after `?`). -/
def dropThroughChar (c : Char) : List Char → List Char
  | [] => []
  | x :: xs => if x = c then xs else dropThroughChar c xs

/-- Whether `pre` is an initial segment of `l`. -/
def startsWith : List Char → List Char → Bool
  | [], _ => true
  | _ :: _, [] => false
  | p :: ps, x :: xs => p == x && startsWith ps xs

/-- The value of query parameter `key` embedded in `url`: the first
`&`-separated segment of the query that begins with `key=`, with that
lead removed. -/
def extractQueryParam (url : List Char) (key : List Char) : Option (List Char) :=
  match (splitOnChar '&' (dropThroughChar '?' url)).find?
      (fun seg => startsWith (key ++ ['=']) seg) with
  | none => none
  | some seg => some (seg.drop (key.length + 1))

/-- One rendered `key=value` query parameter. -/
def renderParam (k v : List Char) : List Char := k ++ '=' :: v

/-! ## OAuth2Handler (`auth.py` lines 136-163): OAuth 2.0 PKCE flow -/

/-- State of `OAuth2Handler`.  The underlying `OAuth2Session` is external;
the fields the module itself reads and writes are embedded.  `useBasicAuth`
records whether a `client_secret` was supplied (then `self.auth` is an
`HTTPBasicAuth`, else `None`).  `code_verifier` is unset until the first
`get_authorization_url` call. -/
structure OAuth2Handler where
  client_id : List Char
  redirect_uri : List Char
  scope : List Char
  useBasicAuth : Bool
  code_verifier : Option (List Char)

/-- `OAuth2Handler.__init__`. -/
def OAuth2Handler.construct (client_id redirect_uri scope : List Char)
    (client_secret : Option (List Char)) : OAuth2Handler :=
  { client_id, redirect_uri, scope, useBasicAuth := client_secret.isSome,
    code_verifier := none }

/-- The PKCE challenge derivation of `get_authorization_url` lines 147-149:
SHA-256 digest of the ASCII-encoded verifier, URL-safe base64 encoded, with
trailing `=` padding stripped. -/
def pkceChallenge (verifier : List Char) : List Char :=
  rstripChar '=' (urlsafe_b64encode (sha256Bytes (verifier.map Char.toNat)))

/-- The external `OAuth2Session.authorization_url` rendering: base URL,
`?`, then `response_type`, `client_id`, `redirect_uri`, `scope`, the
session state, and the passed keyword parameters `code_challenge` and
`code_challenge_method`, joined with `&`. -/
def oauth2AuthorizationURL (client_id redirect_uri scope sessionState challenge : List Char) :
    List Char :=
  ("https://twitter.com/i/oauth2/authorize").toList ++ '?' ::
    (renderParam (("response_type").toList) (("code").toList) ++ '&' ::
     (renderParam (("client_id").toList) client_id ++ '&' ::
      (renderParam (("redirect_uri").toList) redirect_uri ++ '&' ::
       (renderParam (("scope").toList) scope ++ '&' ::
        (renderParam (("state").toList) sessionState ++ '&' ::
         (renderParam (("code_challenge").toList) challenge ++ '&' ::
          renderParam (("code_challenge_method").toList) (("s256").toList)))))))

/-- `OAuth2Handler.get_authorization_url` (lines 145-154): generate the
verifier from 128 fresh random bytes (`secrets.token_urlsafe(128)[:128]`),
store it on the handler, derive the challenge and build the provider
authorization URL.  `rnd` is the randomness consumed by `secrets`,
`sessionState` the state string the external session generates. -/
def OAuth2Handler.get_authorization_url (h : OAuth2Handler) (rnd : List Nat)
    (sessionState : List Char) : OAuth2Handler × List Char :=
  let verifier := (token_urlsafe rnd).take 128
  let challenge := pkceChallenge verifier
  ({ h with code_verifier := some verifier },
   oauth2AuthorizationURL h.client_id h.redirect_uri h.scope sessionState challenge)

/-- `OAuth2Handler.fetch_token` (lines 156-163): delegates to the external
`OAuth2Session.fetch_token` with the stored verifier; there is no
`try`/`except`, so the outcome of the underlying call — success or any
error — is returned exactly as produced.  Reading `self.code_verifier`
before any `get_authorization_url` call raises `AttributeError`. -/
def OAuth2Handler.fetch_token (h : OAuth2Handler)
    (resp : Except PyExc (List (String × String))) : Except PyExc (List (String × String)) :=
  match h.code_verifier with
  | none => .error (.attributeError "code_verifier")
  | some _ => resp

/-! ## OAuthHandler (`auth.py` lines 31-133): OAuth 1.0a three-legged flow -/

/-- State of `OAuthHandler`.  The `OAuth1Session` object held in
`self.oauth` belongs to the external library and is rebuilt from these
fields at each step; it is not part of the embedded state. -/
structure OAuthHandler where
  consumer_key : PyValue
  consumer_secret : PyValue
  access_token : Option String
  access_token_secret : Option String
  callback : Option String
  username : Option String
  request_token : List (String × String)

/-- `OAuthHandler.__init__` (lines 36-53): type-check both consumer
credentials, then initialise the state.  No network interaction occurs. -/
def OAuthHandler.construct (consumer_key consumer_secret : PyValue)
    (callback : Option String) : Except PyExc OAuthHandler :=
  if consumer_key.isStrOrBytes = false then
    .error (.typeError ("Consumer key must be string or bytes, not " ++ consumer_key.typeName))
  else if consumer_secret.isStrOrBytes = false then
    .error (.typeError ("Consumer secret must be string or bytes, not " ++ consumer_secret.typeName))
  else
    .ok { consumer_key, consumer_secret, access_token := none, access_token_secret := none,
          callback, username := none, request_token := [] }

/-- The `OAuth1` signer object returned by `apply_auth` (lines 58-63),
parameterized by consumer credentials and the stored token pair. -/
structure OAuth1Signer where
  client_key : PyValue
  client_secret : PyValue
  resource_owner_key : Option String
  resource_owner_secret : Option String
  deriving Repr, DecidableEq

/-- `OAuthHandler.apply_auth` (lines 58-63). -/
def OAuthHandler.apply_auth (h : OAuthHandler) : OAuth1Signer :=
  ⟨h.consumer_key, h.consumer_secret, h.access_token, h.access_token_secret⟩

/-- `OAuthHandler.set_access_token` (lines 74-76): store the pair directly;
no validation, no network interaction. -/
def OAuthHandler.set_access_token (h : OAuthHandler) (key secret : String) : OAuthHandler :=
  { h with access_token := some key, access_token_secret := some secret }

/-- `OAuthHandler._get_request_token` (lines 65-72).  `fetch` is the
outcome of the external `OAuth1Session.fetch_request_token` call; any
exception it raises is caught and re-raised as `TweepyException(e)`.  The
fetched token dict is returned; `self.request_token` is not written
here. -/
def OAuthHandler._get_request_token (h : OAuthHandler) (access_type : Option String)
    (fetch : Except PyExc (List (String × String))) :
    OAuthHandler × Except PyExc (List (String × String)) :=
  match fetch with
  | .ok tok => (h, .ok tok)
  | .error e => (h, .error (.tweepy e))

/-- The external `OAuth1Session.authorization_url`: the chosen endpoint
with the fetched request token appended as the `oauth_token` query
parameter. -/
def oauth1AuthorizationURL (endpoint : String) (tok : List (String × String)) : List Char :=
  ("https://api.twitter.com/oauth/").toList ++ endpoint.toList ++
    ("?oauth_token=").toList ++ ((List.lookup "oauth_token" tok).getD "").toList

/-- `OAuthHandler.get_authorization_url` (lines 78-92): choose the
`authenticate` or `authorize` endpoint, fetch a request token through
`_get_request_token`, assign it to `self.request_token`, and build the
redirect URL.  The surrounding `try`/`except` wraps any exception —
including the `TweepyException` already raised by `_get_request_token` —
in a further `TweepyException`. -/
def OAuthHandler.get_authorization_url (h : OAuthHandler) (signin_with_twitter : Bool)
    (access_type : Option String) (fetch : Except PyExc (List (String × String))) :
    OAuthHandler × Except PyExc (List Char) :=
  let endpoint := if signin_with_twitter then "authenticate" else "authorize"
  match OAuthHandler._get_request_token h access_type fetch with
  | (h1, .error e) => (h1, .error (.tweepy e))
  | (h1, .ok tok) =>
    ({ h1 with request_token := tok }, .ok (oauth1AuthorizationURL endpoint tok))

/-- `OAuthHandler.get_access_token` (lines 94-111): read the stored
request-token pair (a missing key raises `KeyError`, caught by the
`except` clause and wrapped), rebuild the session, perform the exchange
(`fetch` is the outcome of `OAuth1Session.fetch_access_token`), store the
resulting pair field by field and return it.  Every exception is wrapped
in `TweepyException`.  `self.request_token` is never written. -/
def OAuthHandler.get_access_token (h : OAuthHandler) (verifier : Option String)
    (fetch : Except PyExc (List (String × String))) :
    OAuthHandler × Except PyExc (String × String) :=
  match List.lookup "oauth_token" h.request_token with
  | none => (h, .error (.tweepy (.keyError "oauth_token")))
  | some _ =>
    match List.lookup "oauth_token_secret" h.request_token with
    | none => (h, .error (.tweepy (.keyError "oauth_token_secret")))
    | some _ =>
      match fetch with
      | .error e => (h, .error (.tweepy e))
      | .ok resp =>
        match List.lookup "oauth_token" resp with
        | none => (h, .error (.tweepy (.keyError "oauth_token")))
        | some at1 =>
          let h1 := { h with access_token := some at1 }
          match List.lookup "oauth_token_secret" resp with
          | none => (h1, .error (.tweepy (.keyError "oauth_token_secret")))
          | some at2 =>
            ({ h1 with access_token_secret := some at2 }, .ok (at1, at2))

/-- Python `credentials.get(key)[0]`: subscripting `None` raises
`TypeError`, subscripting an empty list raises `IndexError`. -/
def pySubscript0 : Option (List String) → Except PyExc String
  | none => .error (.typeError "NoneType object is not subscriptable")
  | some [] => .error (.indexError "list index out of range")
  | some (x :: _) => .ok x

/-- `OAuthHandler.get_xauth_access_token` (lines 113-133): POST the
credentials (outcome `resp`, carrying the `parse_qs` of the response body
on success), then extract `oauth_token` and `oauth_token_secret` with
`.get(...)[0]`.  Every exception inside the `try` — transport errors as
well as the `TypeError`/`IndexError` from absent or malformed fields — is
wrapped in `TweepyException`.  The handler state is not modified. -/
def OAuthHandler.get_xauth_access_token (h : OAuthHandler) (username password : String)
    (resp : Except PyExc (List (String × List String))) :
    OAuthHandler × Except PyExc (String × String) :=
  (h,
   match resp with
   | .error e => .error (.tweepy e)
   | .ok credentials =>
     match pySubscript0 (List.lookup "oauth_token" credentials) with
     | .error e => .error (.tweepy e)
     | .ok t =>
       match pySubscript0 (List.lookup "oauth_token_secret" credentials) with
       | .error e => .error (.tweepy e)
       | .ok s => .ok (t, s))

/-! ## OAuth2Bearer (`auth.py` lines 166-173) and AppAuthHandler (176-202) -/

/-- An outbound HTTP request, reduced to its header mapping. -/
structure HTTPRequest where
  headers : String → Option String

/-- The `OAuth2Bearer` request-auth adapter: holds an opaque bearer
string. -/
structure OAuth2Bearer where
  bearer_token : String

/-- `OAuth2Bearer.__call__` (lines 171-173): set the `Authorization`
header to `"Bearer " + token` and return the request.  A pure total
function: no network interaction, no failure mode. -/
def OAuth2Bearer.call (b : OAuth2Bearer) (r : HTTPRequest) : HTTPRequest :=
  { headers := fun k =>
      if k = "Authorization" then some ("Bearer " ++ b.bearer_token) else r.headers k }

/-- A constructed `AppAuthHandler`. -/
structure AppAuthHandler where
  consumer_key : String
  consumer_secret : String
  _bearer_token : String

/-- The constructor error message of lines 193-194, interpolating the
received `token_type` value. -/
def tokenTypeErrorMsg (v : Option String) : String :=
  "Expected token_type to equal \"bearer\", but got " ++ pyStrOpt v ++ " instead"

/-- `AppAuthHandler.__init__` (lines 182-196): POST the client-credentials
grant (outcome `resp`, carrying the parsed JSON object on success — the
constructor has no `try`/`except`, so transport errors propagate), require
`token_type == "bearer"` and otherwise raise a `TweepyException` naming
the received token type, then store `data['access_token']` (a missing key
raises `KeyError`). -/
def AppAuthHandler.construct (consumer_key consumer_secret : String)
    (resp : Except PyExc (List (String × String))) : Except PyExc AppAuthHandler :=
  match resp with
  | .error e => .error e
  | .ok data =>
    if List.lookup "token_type" data ≠ some "bearer" then
      .error (.tweepyMsg (tokenTypeErrorMsg (List.lookup "token_type" data)))
    else
      match List.lookup "access_token" data with
      | none => .error (.keyError "access_token")
      | some t => .ok ⟨consumer_key, consumer_secret, t⟩

/-- `AppAuthHandler.apply_auth` (lines 201-202). -/
def AppAuthHandler.apply_auth (h : AppAuthHandler) : OAuth2Bearer :=
  ⟨h._bearer_token⟩

/-! ### Query-string lemmas -/

theorem splitOnChar_not_mem {c : Char} {a : List Char} (h : c ∉ a) :
    splitOnChar c a = [a] := by
  induction a with
  | nil => rfl
  | cons x xs ih =>
    have hx : ¬x = c := fun he => h (by simp [he])
    have hxs : c ∉ xs := fun hm => h (by simp [hm])
    simp [splitOnChar, hx, ih hxs]

theorem splitOnChar_append {c : Char} {a rest : List Char} (h : c ∉ a) :
    splitOnChar c (a ++ c :: rest) = a :: splitOnChar c rest := by
  induction a with
  | nil => simp [splitOnChar]
  | cons x xs ih =>
    have hx : ¬x = c := fun he => h (by simp [he])
    have hxs : c ∉ xs := fun hm => h (by simp [hm])
    simp only [List.cons_append, splitOnChar, hx, if_false, List.append_eq, ih hxs]

theorem dropThroughChar_append {c : Char} {a rest : List Char} (h : c ∉ a) :
    dropThroughChar c (a ++ c :: rest) = rest := by
  induction a with
  | nil => simp [dropThroughChar]
  | cons x xs ih =>
    have hx : ¬x = c := fun he => h (by simp [he])
    have hxs : c ∉ xs := fun hm => h (by simp [hm])
    simp only [List.cons_append, dropThroughChar, hx, if_false, List.append_eq, ih hxs]

theorem startsWith_append_self (a b : List Char) : startsWith a (a ++ b) = true := by
  induction a with
  | nil => rfl
  | cons x xs ih => simp [startsWith, ih]

theorem startsWith_cons_of_eq {p x : Char} {ps xs : List Char} (h : p = x) :
    startsWith (p :: ps) (x :: xs) = startsWith ps xs := by
  simp [startsWith, h]

theorem startsWith_cons_of_ne {p x : Char} {ps xs : List Char} (h : ¬p = x) :
    startsWith (p :: ps) (x :: xs) = false := by
  simp [startsWith, h]

theorem amp_not_mem_param {key v : List Char} (hk : '&' ∉ key) (hv : '&' ∉ v) :
    '&' ∉ renderParam key v := by
  intro hm
  rcases List.mem_append.1 hm with hm | hm
  · exact hk hm
  · rcases List.mem_cons.1 hm with hm | hm
    · exact absurd hm (by decide)
    · exact hv hm

/-- The `code_challenge` query parameter of the rendered authorization URL
is exactly the challenge string that was passed in, provided none of the
other parameter values contains a raw `&`. -/
theorem extract_code_challenge (cid ruri scope sess chal : List Char)
    (h1 : '&' ∉ cid) (h2 : '&' ∉ ruri) (h3 : '&' ∉ scope) (h4 : '&' ∉ sess)
    (h5 : '&' ∉ chal) :
    extractQueryParam (oauth2AuthorizationURL cid ruri scope sess chal)
      (("code_challenge").toList) = some chal := by
  have m1 : '&' ∉ renderParam (("response_type").toList) (("code").toList) := by decide
  have m2 : '&' ∉ renderParam (("client_id").toList) cid :=
    amp_not_mem_param (by decide) h1
  have m3 : '&' ∉ renderParam (("redirect_uri").toList) ruri :=
    amp_not_mem_param (by decide) h2
  have m4 : '&' ∉ renderParam (("scope").toList) scope :=
    amp_not_mem_param (by decide) h3
  have m5 : '&' ∉ renderParam (("state").toList) sess :=
    amp_not_mem_param (by decide) h4
  have m6 : '&' ∉ renderParam (("code_challenge").toList) chal :=
    amp_not_mem_param (by decide) h5
  have m7 : '&' ∉ renderParam (("code_challenge_method").toList) (("s256").toList) := by decide
  simp only [extractQueryParam, oauth2AuthorizationURL]
  rw [dropThroughChar_append (by decide), splitOnChar_append m1, splitOnChar_append m2,
    splitOnChar_append m3, splitOnChar_append m4, splitOnChar_append m5,
    splitOnChar_append m6, splitOnChar_not_mem m7]
  have p1 : startsWith (("code_challenge").toList ++ ['='])
      (renderParam (("response_type").toList) (("code").toList)) = false := by decide
  have p2 : startsWith (("code_challenge").toList ++ ['='])
      (renderParam (("client_id").toList) cid) = false := by
    show startsWith ('c' :: 'o' :: (("de_challenge").toList ++ ['=']))
      ('c' :: 'l' :: (("ient_id").toList ++ '=' :: cid)) = false
    rw [startsWith_cons_of_eq rfl, startsWith_cons_of_ne (by decide)]
  have p3 : startsWith (("code_challenge").toList ++ ['='])
      (renderParam (("redirect_uri").toList) ruri) = false := by
    show startsWith ('c' :: (("ode_challenge").toList ++ ['=']))
      ('r' :: (("edirect_uri").toList ++ '=' :: ruri)) = false
    rw [startsWith_cons_of_ne (by decide)]
  have p4 : startsWith (("code_challenge").toList ++ ['='])
      (renderParam (("scope").toList) scope) = false := by
    show startsWith ('c' :: (("ode_challenge").toList ++ ['=']))
      ('s' :: (("cope").toList ++ '=' :: scope)) = false
    rw [startsWith_cons_of_ne (by decide)]
  have p5 : startsWith (("code_challenge").toList ++ ['='])
      (renderParam (("state").toList) sess) = false := by
    show startsWith ('c' :: (("ode_challenge").toList ++ ['=']))
      ('s' :: (("tate").toList ++ '=' :: sess)) = false
    rw [startsWith_cons_of_ne (by decide)]
  have p6 : startsWith (("code_challenge").toList ++ ['='])
      (renderParam (("code_challenge").toList) chal) = true := by
    show startsWith (("code_challenge").toList ++ ['='])
      (("code_challenge").toList ++ '=' :: chal) = true
    have : ("code_challenge").toList ++ '=' :: chal =
        (("code_challenge").toList ++ ['=']) ++ chal := by
      rw [List.append_assoc]; rfl
    rw [this, startsWith_append_self]
  rw [List.find?_cons_of_neg _ (by simp only [p1]; decide), List.find?_cons_of_neg _ (by simp only [p2]; decide),
    List.find?_cons_of_neg _ (by simp only [p3]; decide), List.find?_cons_of_neg _ (by simp only [p4]; decide),
    List.find?_cons_of_neg _ (by simp only [p5]; decide), List.find?_cons_of_pos _ (by simp only [p6])]
  have : renderParam (("code_challenge").toList) chal =
      (("code_challenge").toList ++ ['=']) ++ chal := by
    show ("code_challenge").toList ++ '=' :: chal = (("code_challenge").toList ++ ['=']) ++ chal
    rw [List.append_assoc]; rfl
  rw [this]
  have hl : (("code_challenge").toList).length + 1 = (("code_challenge").toList ++ ['=']).length := by
    decide
  rw [hl]
  show some (List.drop ((("code_challenge").toList ++ ['=']).length)
    ((("code_challenge").toList ++ ['=']) ++ chal)) = some chal
  rw [List.drop_left]

/-! ## Claim theorems -/

theorem pkceChallenge_eq_noPad (v : List Char) :
    pkceChallenge v = b64NoPad (sha256Bytes (v.map Char.toNat)) :=
  strip_encode (sha256Bytes_lt _)

theorem amp_not_mem_pkceChallenge (v : List Char) : '&' ∉ pkceChallenge v := by
  intro hm
  rw [pkceChallenge_eq_noPad] at hm
  have := b64NoPad_alphabet (sha256Bytes_lt (v.map Char.toNat)) '&' hm
  exact absurd this (by decide)

/-- C1: for every call to `OAuth2Handler.get_authorization_url`,
recomputing the PKCE challenge from the verifier stored on the handler by
that call — SHA-256 digest of the ASCII-encoded verifier, URL-safe base64
encoded, trailing `=` padding stripped, which is exactly `pkceChallenge` —
equals the `code_challenge` value embedded in the authorization URL
returned by the same call.  The hypotheses say that the other
query-parameter values contain no raw `&`. -/
theorem pkce_challenge_matches_authorization_url (h : OAuth2Handler) (rnd : List Nat)
    (sessionState : List Char) (h1 : '&' ∉ h.client_id) (h2 : '&' ∉ h.redirect_uri)
    (h3 : '&' ∉ h.scope) (h4 : '&' ∉ sessionState) :
    ∃ v, (OAuth2Handler.get_authorization_url h rnd sessionState).1.code_verifier = some v ∧
      extractQueryParam (OAuth2Handler.get_authorization_url h rnd sessionState).2
        (("code_challenge").toList) = some (pkceChallenge v) := by
  refine ⟨(token_urlsafe rnd).take 128, rfl, ?_⟩
  exact extract_code_challenge _ _ _ _ _ h1 h2 h3 h4
    (amp_not_mem_pkceChallenge ((token_urlsafe rnd).take 128))

theorem pkce_challenge_matches_authorization_url_check :
    '&' ∉ (("cid123").toList) ∧ '&' ∉ (("https://app.example/cb").toList) ∧
    '&' ∉ (("tweet.read").toList) ∧ '&' ∉ (("st8").toList) ∧
    (∃ v, (OAuth2Handler.get_authorization_url
        (OAuth2Handler.construct (("cid123").toList) (("https://app.example/cb").toList)
          (("tweet.read").toList) none) (List.replicate 128 7) (("st8").toList)).1.code_verifier
        = some v ∧
      extractQueryParam (OAuth2Handler.get_authorization_url
        (OAuth2Handler.construct (("cid123").toList) (("https://app.example/cb").toList)
          (("tweet.read").toList) none) (List.replicate 128 7) (("st8").toList)).2
        (("code_challenge").toList) = some (pkceChallenge v)) :=
  ⟨by decide, by decide, by decide, by decide,
   pkce_challenge_matches_authorization_url _ _ _ (by decide) (by decide) (by decide) (by decide)⟩

/-- C2: every verifier generated by `OAuth2Handler.get_authorization_url`
from 128 random bytes is exactly 128 characters long, every character is
in the URL-safe base64 alphabet, and the verifier stored on the handler
after the call is derived from this call's randomness alone — whatever
verifier was stored before is overwritten. -/
theorem code_verifier_fresh_and_urlsafe (h : OAuth2Handler) (rnd : List Nat)
    (sessionState : List Char) (hlen : rnd.length = 128) (hbytes : ∀ b ∈ rnd, b < 256) :
    (OAuth2Handler.get_authorization_url h rnd sessionState).1.code_verifier
        = some ((token_urlsafe rnd).take 128) ∧
    ((token_urlsafe rnd).take 128).length = 128 ∧
    ∀ c ∈ (token_urlsafe rnd).take 128, isB64UrlChar c = true := by
  refine ⟨rfl, ?_, ?_⟩
  · rw [List.length_take, token_urlsafe_length hbytes, hlen]; decide
  · intro c hc
    exact token_urlsafe_alphabet hbytes c (List.mem_of_mem_take hc)

theorem code_verifier_fresh_and_urlsafe_check :
    (List.replicate 128 0).length = 128 ∧ (∀ b ∈ List.replicate 128 0, b < 256) ∧
    ((OAuth2Handler.get_authorization_url
        (OAuth2Handler.construct [] [] [] none) (List.replicate 128 0) []).1.code_verifier
        = some ((token_urlsafe (List.replicate 128 0)).take 128) ∧
     ((token_urlsafe (List.replicate 128 0)).take 128).length = 128 ∧
     ∀ c ∈ (token_urlsafe (List.replicate 128 0)).take 128, isB64UrlChar c = true) :=
  ⟨by decide, by decide,
   code_verifier_fresh_and_urlsafe _ _ [] (by decide) (by decide)⟩

/-- C3: constructing `AppAuthHandler` from a provider response whose
`token_type` is `"mac"` fails with a `TweepyException` whose message
interpolates the received token type (so it names `mac`), leaving no
handler; from `{"token_type": "bearer", "access_token": "T"}` construction
succeeds and `apply_auth()` returns a bearer adapter that sets the
`Authorization` header of any request to `"Bearer T"`. -/
theorem appauth_token_type_validation (ck cs : String) :
    (AppAuthHandler.construct ck cs (.ok [("token_type", "mac")])
        = .error (.tweepyMsg (tokenTypeErrorMsg (some "mac"))) ∧
      tokenTypeErrorMsg (some "mac")
        = "Expected token_type to equal \"bearer\", but got " ++ "mac" ++ " instead") ∧
    (∃ hdl, AppAuthHandler.construct ck cs
        (.ok [("token_type", "bearer"), ("access_token", "T")]) = .ok hdl ∧
      ∀ r : HTTPRequest,
        ((AppAuthHandler.apply_auth hdl).call r).headers "Authorization"
          = some ("Bearer " ++ "T")) := by
  refine ⟨⟨rfl, rfl⟩, ⟨⟨ck, cs, "T"⟩, rfl, fun r => ?_⟩⟩
  simp [OAuth2Bearer.call, AppAuthHandler.apply_auth]

/-- C4: on any underlying failure `e`, the OAuth1 operations
`_get_request_token`, `get_authorization_url`, `get_access_token` and
`get_xauth_access_token` raise `TweepyException` wrapping the cause (in
`get_authorization_url` the wrap even happens twice, because
`_get_request_token` already wrapped) and never the raw error, while
`OAuth2Handler.fetch_token` propagates the underlying error unmodified.
The hypotheses put `get_access_token` past its field reads (a stored
request token) and `fetch_token` past its verifier read. -/
theorem oauth1_wraps_oauth2_propagates (h hk : OAuthHandler) (o2 : OAuth2Handler)
    (e : PyExc) (swt : Bool) (acc ver : Option String) (u p : String)
    (hk1 : (List.lookup "oauth_token" hk.request_token).isSome = true)
    (hk2 : (List.lookup "oauth_token_secret" hk.request_token).isSome = true)
    (hv : o2.code_verifier.isSome = true) :
    (OAuthHandler._get_request_token h acc (.error e)).2 = .error (.tweepy e) ∧
    (OAuthHandler.get_authorization_url h swt acc (.error e)).2 = .error (.tweepy (.tweepy e)) ∧
    (OAuthHandler.get_access_token hk ver (.error e)).2 = .error (.tweepy e) ∧
    (OAuthHandler.get_xauth_access_token h u p (.error e)).2 = .error (.tweepy e) ∧
    OAuth2Handler.fetch_token o2 (.error e) = .error e := by
  refine ⟨rfl, rfl, ?_, rfl, ?_⟩
  · obtain ⟨t1, ht1⟩ := Option.isSome_iff_exists.1 hk1
    obtain ⟨t2, ht2⟩ := Option.isSome_iff_exists.1 hk2
    simp [OAuthHandler.get_access_token, ht1, ht2]
  · obtain ⟨v, hv1⟩ := Option.isSome_iff_exists.1 hv
    simp [OAuth2Handler.fetch_token, hv1]

theorem oauth1_wraps_oauth2_propagates_check :
    (List.lookup "oauth_token"
      (OAuthHandler.mk (.pstr "k") (.pstr "s") none none none none
        [("oauth_token", "RT"), ("oauth_token_secret", "RS")]).request_token).isSome = true ∧
    (List.lookup "oauth_token_secret"
      (OAuthHandler.mk (.pstr "k") (.pstr "s") none none none none
        [("oauth_token", "RT"), ("oauth_token_secret", "RS")]).request_token).isSome = true ∧
    ((OAuth2Handler.mk [] [] [] false (some [])).code_verifier).isSome = true ∧
    ((OAuthHandler._get_request_token
        (OAuthHandler.mk (.pstr "k") (.pstr "s") none none none none []) none
        (.error (.transportError "timeout"))).2 = .error (.tweepy (.transportError "timeout")) ∧
     (OAuthHandler.get_authorization_url
        (OAuthHandler.mk (.pstr "k") (.pstr "s") none none none none []) false none
        (.error (.transportError "timeout"))).2
        = .error (.tweepy (.tweepy (.transportError "timeout"))) ∧
     (OAuthHandler.get_access_token
        (OAuthHandler.mk (.pstr "k") (.pstr "s") none none none none
          [("oauth_token", "RT"), ("oauth_token_secret", "RS")]) (some "v")
        (.error (.transportError "timeout"))).2 = .error (.tweepy (.transportError "timeout")) ∧
     (OAuthHandler.get_xauth_access_token
        (OAuthHandler.mk (.pstr "k") (.pstr "s") none none none none []) "u" "p"
        (.error (.transportError "timeout"))).2 = .error (.tweepy (.transportError "timeout")) ∧
     OAuth2Handler.fetch_token (OAuth2Handler.mk [] [] [] false (some []))
        (.error (.transportError "timeout")) = .error (.transportError "timeout")) :=
  ⟨by decide, by decide, by decide,
   oauth1_wraps_oauth2_propagates _ _ _ _ false none (some "v") "u" "p"
     (by decide) (by decide) (by decide)⟩

/-- C5: applying `OAuth2Bearer(token)` to a request sets its
`Authorization` header to exactly `"Bearer " ++ token`, leaves every other
header unchanged, and returns the (updated) request; the operation is a
pure total function with no failure mode and no network interaction. -/
theorem bearer_header_exact_frame (token : String) (r : HTTPRequest) (k : String)
    (hk : k ≠ "Authorization") :
    ((OAuth2Bearer.mk token).call r).headers "Authorization" = some ("Bearer " ++ token) ∧
    ((OAuth2Bearer.mk token).call r).headers k = r.headers k := by
  constructor
  · simp [OAuth2Bearer.call]
  · simp [OAuth2Bearer.call, hk]

theorem bearer_header_exact_frame_check :
    "X-Other" ≠ "Authorization" ∧
    (((OAuth2Bearer.mk "XYZ").call (HTTPRequest.mk fun _ => none)).headers "Authorization"
        = some ("Bearer " ++ "XYZ") ∧
     ((OAuth2Bearer.mk "XYZ").call (HTTPRequest.mk fun _ => none)).headers "X-Other"
        = (HTTPRequest.mk fun _ => none).headers "X-Other") :=
  ⟨by decide, bearer_header_exact_frame "XYZ" _ "X-Other" (by decide)⟩

/-- C6: whenever `oauth_token` or `oauth_token_secret` is absent from (or
malformed in) the parsed xAuth response, `get_xauth_access_token` fails
with a `TweepyException` wrapping the underlying lookup error — the
`TypeError` from subscripting the `None` that `dict.get` returns, or the
`IndexError` from an empty value list — and never leaks that error raw. -/
theorem xauth_missing_fields_wrapped (h : OAuthHandler) (u p : String)
    (credentials : List (String × List String))
    (hmiss : List.lookup "oauth_token" credentials = none ∨
      List.lookup "oauth_token" credentials = some [] ∨
      List.lookup "oauth_token_secret" credentials = none ∨
      List.lookup "oauth_token_secret" credentials = some []) :
    ∃ cause, (OAuthHandler.get_xauth_access_token h u p (.ok credentials)).2
      = .error (.tweepy cause) := by
  cases h1 : List.lookup "oauth_token" credentials with
  | none =>
    exact ⟨.typeError "NoneType object is not subscriptable", by
      simp [OAuthHandler.get_xauth_access_token, h1, pySubscript0]⟩
  | some l1 =>
    cases l1 with
    | nil =>
      exact ⟨.indexError "list index out of range", by
        simp [OAuthHandler.get_xauth_access_token, h1, pySubscript0]⟩
    | cons x xs =>
      cases h2 : List.lookup "oauth_token_secret" credentials with
      | none =>
        exact ⟨.typeError "NoneType object is not subscriptable", by
          simp [OAuthHandler.get_xauth_access_token, h1, h2, pySubscript0]⟩
      | some l2 =>
        cases l2 with
        | nil =>
          exact ⟨.indexError "list index out of range", by
            simp [OAuthHandler.get_xauth_access_token, h1, h2, pySubscript0]⟩
        | cons y ys =>
          exfalso
          rcases hmiss with hm | hm | hm | hm
          · rw [hm] at h1; exact Option.noConfusion h1
          · rw [hm] at h1; simp at h1
          · rw [hm] at h2; exact Option.noConfusion h2
          · rw [hm] at h2; simp at h2

theorem xauth_missing_fields_wrapped_check :
    (List.lookup "oauth_token" [("oauth_token", ["T"])] = none ∨
     List.lookup "oauth_token" [("oauth_token", ["T"])] = some [] ∨
     List.lookup "oauth_token_secret" ([("oauth_token", ["T"])] : List (String × List String))
        = none ∨
     List.lookup "oauth_token_secret" ([("oauth_token", ["T"])] : List (String × List String))
        = some []) ∧
    ∃ cause, (OAuthHandler.get_xauth_access_token
        (OAuthHandler.mk (.pstr "k") (.pstr "s") none none none none []) "u" "p"
        (.ok [("oauth_token", ["T"])])).2 = .error (.tweepy cause) :=
  ⟨by decide,
   xauth_missing_fields_wrapped _ "u" "p" _ (by decide)⟩

/-- C7 counterexample: `_get_request_token` alone does not store the
fetched pair in `request_token`.  Starting from a freshly constructed
handler (empty `request_token`), a successful call returns the fetched
pair to the caller, yet the handler's `request_token` is still empty —
the claim that the request-token operation both stores and returns the
pair is false of the code. -/
theorem request_token_not_stored_by_fetch :
    (OAuthHandler._get_request_token
        (OAuthHandler.mk (.pstr "k") (.pstr "s") none none none none []) none
        (.ok [("oauth_token", "T"), ("oauth_token_secret", "S")])).2
      = .ok [("oauth_token", "T"), ("oauth_token_secret", "S")] ∧
    (OAuthHandler._get_request_token
        (OAuthHandler.mk (.pstr "k") (.pstr "s") none none none none []) none
        (.ok [("oauth_token", "T"), ("oauth_token_secret", "S")])).1.request_token
      ≠ [("oauth_token", "T"), ("oauth_token_secret", "S")] := by
  refine ⟨rfl, ?_⟩
  simp [OAuthHandler._get_request_token]

/-- C7 amended: a successful `_get_request_token` returns the fetched
`(oauth_token, oauth_token_secret)` dict to its caller and leaves
`request_token` untouched; the pair is stored into the handler's
`request_token` by `get_authorization_url`, which assigns the result of
the request-token step (line 89). -/
theorem request_token_returned_then_stored_by_authorization_url (h : OAuthHandler)
    (acc : Option String) (tok : List (String × String)) (swt : Bool) :
    (OAuthHandler._get_request_token h acc (.ok tok)).2 = .ok tok ∧
    (OAuthHandler._get_request_token h acc (.ok tok)).1.request_token = h.request_token ∧
    (OAuthHandler.get_authorization_url h swt acc (.ok tok)).1.request_token = tok :=
  ⟨rfl, rfl, rfl⟩

/-- C8 counterexample: the request token is not discarded by
`get_access_token` and can be reused.  After a successful exchange the
handler still holds the same `request_token`, and a second exchange on
the same handler succeeds again from that stored pair — the claim that
the token is discarded and cannot be reused is false of the code. -/
theorem request_token_reusable_after_exchange :
    ((OAuthHandler.get_access_token
        (OAuthHandler.mk (.pstr "k") (.pstr "s") none none none none
          [("oauth_token", "RT"), ("oauth_token_secret", "RS")]) (some "v")
        (.ok [("oauth_token", "AT"), ("oauth_token_secret", "AS")])).1.request_token
      = [("oauth_token", "RT"), ("oauth_token_secret", "RS")]) ∧
    ((OAuthHandler.get_access_token
        (OAuthHandler.get_access_token
          (OAuthHandler.mk (.pstr "k") (.pstr "s") none none none none
            [("oauth_token", "RT"), ("oauth_token_secret", "RS")]) (some "v")
          (.ok [("oauth_token", "AT"), ("oauth_token_secret", "AS")])).1 (some "v")
        (.ok [("oauth_token", "AT2"), ("oauth_token_secret", "AS2")])).2
      = .ok ("AT2", "AS2")) :=
  ⟨rfl, rfl⟩

/-- C8 amended: `get_access_token` never writes `request_token` — on
success and on failure alike the stored request token survives the
exchange; its consumption is a provider-side protocol convention the
handler does not enforce, so a subsequent exchange on the same handler
reads the same stored pair. -/
theorem request_token_unchanged_by_get_access_token (h : OAuthHandler)
    (ver : Option String) (fetch : Except PyExc (List (String × String))) :
    (OAuthHandler.get_access_token h ver fetch).1.request_token = h.request_token := by
  unfold OAuthHandler.get_access_token
  repeat' split
  all_goals rfl

/-- C9: `set_access_token(k, s)` stores the pair directly — no network
call, no validation, total for all inputs — and only changes the two
token fields, so that `apply_auth()` immediately returns the `OAuth1`
signer parameterized by the consumer credentials together with
`(k, s)`. -/
theorem set_access_token_immediate (h : OAuthHandler) (k s : String) :
    OAuthHandler.set_access_token h k s
      = { h with access_token := some k, access_token_secret := some s } ∧
    OAuthHandler.apply_auth (OAuthHandler.set_access_token h k s)
      = OAuth1Signer.mk h.consumer_key h.consumer_secret (some k) (some s) :=
  ⟨rfl, rfl⟩

/-- C10: constructing an `OAuthHandler` with a consumer key that is
neither `str` nor `bytes` raises a `TypeError` naming the offending
argument's type before any state is stored (the constructor returns no
handler), and likewise for the consumer secret once the key passes the
check; the constructor performs no network interaction. -/
theorem construct_type_error (ck cs ck2 cs2 : PyValue) (cb : Option String)
    (hck : ck.isStrOrBytes = false) (hck2 : ck2.isStrOrBytes = true)
    (hcs2 : cs2.isStrOrBytes = false) :
    OAuthHandler.construct ck cs cb
      = .error (.typeError ("Consumer key must be string or bytes, not " ++ ck.typeName)) ∧
    OAuthHandler.construct ck2 cs2 cb
      = .error (.typeError ("Consumer secret must be string or bytes, not " ++ cs2.typeName)) := by
  constructor
  · simp [OAuthHandler.construct, hck]
  · simp [OAuthHandler.construct, hck2, hcs2]

theorem construct_type_error_check :
    (PyValue.pint 3).isStrOrBytes = false ∧ (PyValue.pstr "k").isStrOrBytes = true ∧
    (PyValue.pnone).isStrOrBytes = false ∧
    (OAuthHandler.construct (.pint 3) (.pstr "s") none
        = .error (.typeError ("Consumer key must be string or bytes, not " ++ "int")) ∧
     OAuthHandler.construct (.pstr "k") .pnone none
        = .error (.typeError ("Consumer secret must be string or bytes, not " ++ "NoneType"))) :=
  ⟨by decide, by decide, by decide, by
    have h := construct_type_error (.pint 3) (.pstr "s") (.pstr "k") .pnone none
      (by decide) (by decide) (by decide)
    exact h⟩
